import Mathlib

/-!
Shallow embedding of the MCP Lightsail deployment server: the session store
(`SessionManager`), the per-deployment event channels, and the provisioning,
redeploy and deletion workflows, together with theorems settling the
specification claims about them.

External collaborators (AWS Lightsail API, DNS provider, SSH executor) are
modelled as environments of call results (`Except String _` per call); all
session-store and workflow control flow is translated from the TypeScript
source files.
-/

namespace McpDeploy

/-- JS string split on a single separator character, mirroring `str.split(c)`:
the result always has at least one (possibly empty) segment. -/
def splitOnChar (c : Char) : List Char → List (List Char)
  | [] => [[]]
  | x :: xs =>
    let r := splitOnChar c xs
    if x = c then [] :: r
    else (x :: r.headD []) :: r.tail

/-- JS `url.split('/').pop()`: the last '/'-separated segment. -/
def lastSegment (url : String) : String :=
  String.mk ((splitOnChar '/' url.data).getLastD [])

def gitSuffixChars : List Char := ['.', 'g', 'i', 't']

/-- JS `s.replace(/\.git$/, '')`: strip one trailing ".git" occurrence. -/
def stripGitSuffix (s : String) : String :=
  if gitSuffixChars.isSuffixOf s.data then
    String.mk (s.data.take (s.data.length - 4))
  else s

/-- JS truthiness of an optional string: `undefined` and `""` are falsy. -/
def truthy : Option String → Bool
  | none => false
  | some s => decide (s ≠ "")

/-- JS `a || b` where `a` is a string and `b` an optional string: returns `b`
whenever `a` is falsy (empty). -/
def jsOrString (a : String) (b : Option String) : Option String :=
  if a = "" then b else some a

/-- Deployment configuration. Only the fields the modelled session/workflow
logic reads are kept; the remaining credential fields of the source
`DeploymentConfig` are opaque strings that never influence control flow. -/
structure DeploymentConfig where
  githubRepoUrl : String
  projectName : Option String
  deriving Repr, DecidableEq

/-- Instance-name computation of the session variant of `deployVmAsync`
(create-vm.ts): `config.githubRepoUrl.split('/').pop()?.replace(/\.git$/, '')
|| config.projectName`, the result being the instance name directly. -/
def instanceNameSessionVariant (cfg : DeploymentConfig) : Option String :=
  jsOrString (stripGitSuffix (lastSegment cfg.githubRepoUrl)) cfg.projectName

/-- Repo-name computation of the deployment-id variant of `deployVmAsync`:
`config.githubRepoUrl.split('/').pop()?.replace(/\.git$/, '') || 'project'`. -/
def repoNameDefault (cfg : DeploymentConfig) : String :=
  let base := stripGitSuffix (lastSegment cfg.githubRepoUrl)
  if base = "" then "project" else base

/-- Instance-name computation of the deployment-id variant of `deployVmAsync`:
`config.projectName || repoName`. -/
def instanceNameDeployIdVariant (cfg : DeploymentConfig) : String :=
  match cfg.projectName with
  | some p => if p = "" then repoNameDefault cfg else p
  | none => repoNameDefault cfg

/-- Session status, from the `DeploymentState` union type. -/
inductive DeployStatus where
  | deploying
  | redeploying
  | success
  | failed
  deriving Repr, DecidableEq

/-- One deployment session (`DeploymentState` in types/deployment.ts).
Timestamps are modelled as abstract ticks; log entries as their messages. -/
structure DeploymentState where
  deploymentId : String
  status : DeployStatus
  config : DeploymentConfig
  instanceName : Option String := none
  publicIp : Option String := none
  dnsName : Option String := none
  error : Option String := none
  logs : List String := []
  createdAt : Nat := 0
  lastDeployedAt : Option Nat := none
  deriving Repr, DecidableEq

/-- The session map of `SessionManager`, as an insertion-ordered association
list mirroring a JS `Map<string, DeploymentState>` (keys unique). -/
abbrev Store := List (String × DeploymentState)

/-- JS `Map.get`. -/
def Store.get : Store → String → Option DeploymentState
  | [], _ => none
  | p :: rest, id => if p.1 = id then some p.2 else Store.get rest id

/-- JS `Map.set`: replace the entry in place if the key exists, otherwise
append a new entry. -/
def Store.set : Store → String → DeploymentState → Store
  | [], id, v => [(id, v)]
  | p :: rest, id, v =>
    if p.1 = id then (id, v) :: rest else p :: Store.set rest id v

/-- JS `Map.delete` (keys are unique, so filtering the key out is the same). -/
def Store.del (st : Store) (id : String) : Store :=
  st.filter (fun p => decide (p.1 ≠ id))

/-- A `Partial<DeploymentState>` as passed to `updateSession`: `some v` means
the field is present in the update object. (The source never passes an
explicit `undefined` for a field that is already set, so presence/absence
captures `Object.assign` faithfully on every call site.) -/
structure SessionUpdate where
  status : Option DeployStatus := none
  instanceName : Option String := none
  publicIp : Option String := none
  dnsName : Option String := none
  error : Option String := none
  logs : Option (List String) := none
  lastDeployedAt : Option Nat := none

/-- Field-level `Object.assign`: an update value wins when present. -/
def updField {α : Type} : Option α → Option α → Option α
  | some v, _ => some v
  | none, old => old

/-- JS `Object.assign(session, updates)` restricted to the updatable fields. -/
def applyUpdate (s : DeploymentState) (u : SessionUpdate) : DeploymentState :=
  { s with
    status := match u.status with | some v => v | none => s.status
    instanceName := updField u.instanceName s.instanceName
    publicIp := updField u.publicIp s.publicIp
    dnsName := updField u.dnsName s.dnsName
    error := updField u.error s.error
    logs := match u.logs with | some v => v | none => s.logs
    lastDeployedAt := updField u.lastDeployedAt s.lastDeployedAt }

/-- `SessionManager.updateSession`: merge updates into an existing session;
silently do nothing when the id is unknown. (The timer refresh has no
observable effect on the store itself.) -/
def updateSession (st : Store) (id : String) (u : SessionUpdate) : Store :=
  match Store.get st id with
  | some s => Store.set st id (applyUpdate s u)
  | none => st

/-- `SessionManager.createSession`: insert a fresh `deploying` session under
the given id (the source draws a UUID when none is supplied; the id is a
parameter here). -/
def createSession (st : Store) (cfg : DeploymentConfig) (id : String) : Store :=
  Store.set st id { deploymentId := id, status := .deploying, config := cfg }

/-- `SessionManager.getAllSessions`. -/
def getAllSessions (st : Store) : List DeploymentState :=
  st.map Prod.snd

/-- SSE event kinds (types/deployment.ts plus the route-level `connected`). -/
inductive EventType where
  | connected
  | progress
  | log
  | error
  | complete
  | status
  deriving Repr, DecidableEq

/-- An emitted SSE event; the payload is summarized by its message string. -/
structure SSEEvent where
  type : EventType
  data : String
  deriving Repr, DecidableEq

def progressEvent (m : String) : SSEEvent := ⟨.progress, m⟩

def logEvent (m : String) : SSEEvent := ⟨.log, m⟩

def errorEvent (e : String) : SSEEvent := ⟨.error, e⟩

def completeEvent (d : String) : SSEEvent := ⟨.complete, d⟩

/-- Store effect of `SessionManager.emitError`: `updateSession(id, { status:
'failed', error })` (the event itself is tracked by the workflow models). -/
def emitErrorStore (st : Store) (id : String) (e : String) : Store :=
  updateSession st id { status := some .failed, error := some e }

/-- Store effect of `SessionManager.emitComplete`: `updateSession(id,
{ status: 'success' })`; note it does not touch the `error` field. -/
def emitCompleteStore (st : Store) (id : String) : Store :=
  updateSession st id { status := some .success }

/-- Store effect of `SessionManager.emitLog`: append the log entry to the
session's log list when the session exists. -/
def emitLogStore (st : Store) (id : String) (m : String) : Store :=
  match Store.get st id with
  | some s => updateSession st id { logs := some (s.logs ++ [m]) }
  | none => st

/-- Channel key used by `SessionManager.emitEvent`: the emit call on the
template string "deployment:" followed by the deployment id. -/
def emitChannelKey (deploymentId : String) : String :=
  "deployment:" ++ deploymentId

/-- Channel key the SSE route of transport.ts listens on: the template string
"session:" followed by the session id. -/
def sseChannelKey (sessionId : String) : String :=
  "session:" ++ sessionId

/-- Registered event-emitter listeners: channel key paired with a handler id. -/
abbrev Subscribers := List (String × Nat)

/-- Registering the SSE route's handler for a deployment id. -/
def subscribeSse (subs : Subscribers) (sessionId : String) (handler : Nat) : Subscribers :=
  subs ++ [(sseChannelKey sessionId, handler)]

/-- EventEmitter dispatch: the handlers a `emit(key, ·)` call invokes, in
registration order. -/
def publishTo (subs : Subscribers) (key : String) : List Nat :=
  (subs.filter (fun p => decide (p.1 = key))).map Prod.snd

/-- Handlers invoked by `SessionManager.emitEvent(deploymentId, event)`. -/
def emitEventDeliveries (subs : Subscribers) (deploymentId : String) : List Nat :=
  publishTo subs (emitChannelKey deploymentId)

/-- Outcome of one `getInstance` poll inside `waitForInstanceRunning`: either
the API call throws, or it reports a lifecycle state name and an optional
public IP address. -/
inductive PollOutcome where
  | fail (msg : String)
  | info (stateName : String) (publicIpAddress : Option String)
  deriving Repr, DecidableEq

/-- JS whitespace trim over the character list. -/
def trimChars (l : List Char) : List Char :=
  ((l.dropWhile Char.isWhitespace).reverse.dropWhile Char.isWhitespace).reverse

/-- Address normalization in `waitForInstanceRunning`:
`publicIpAddress.split(':')[0].trim()`. -/
def normalizeIp (s : String) : String :=
  String.mk (trimChars ((splitOnChar ':' s.data).headD []))

/-- Readiness test of one poll: lifecycle state "running" AND a truthy
(non-empty) public IP address. -/
def isReady : PollOutcome → Bool
  | .fail _ => false
  | .info stateName publicIpAddress =>
    decide (stateName = "running") && truthy publicIpAddress

/-- The raw address a ready poll carries. -/
def readyAddr : PollOutcome → String
  | .fail _ => ""
  | .info _ publicIpAddress => publicIpAddress.getD ""

/-- The polling loop of `AWSService.waitForInstanceRunning`, with the polls
indexed by attempt number and the remaining attempts as fuel. -/
def waitLoop (poll : Nat → PollOutcome) : Nat → Nat → Except String String
  | _, 0 => .error "Timeout waiting for instance to be ready"
  | attempt, fuel + 1 =>
    match poll attempt with
    | .fail m => .error ("Failed to check instance status: " ++ m)
    | .info stateName publicIpAddress =>
      if decide (stateName = "running") && truthy publicIpAddress then
        .ok (normalizeIp (publicIpAddress.getD ""))
      else waitLoop poll (attempt + 1) fuel

/-- `AWSService.waitForInstanceRunning(instanceName, maxAttempts)`; the source
default for `maxAttempts` is 24. -/
def waitForInstanceRunning (poll : Nat → PollOutcome) (maxAttempts : Nat) : Except String String :=
  waitLoop poll 0 maxAttempts

/-- Boolean test that a fallible call returned a value. -/
def isOkE {ε α : Type} : Except ε α → Bool
  | .ok _ => true
  | .error _ => false

/-- Results of the external calls a provisioning run makes, in program order.
Error strings stand for the (already wrapped) thrown messages. -/
structure DeployEnv where
  createInstance : Except String Unit
  waitPoll : Nat → PollOutcome
  openPorts : Except String Unit
  sshConnect : Except String Unit
  setupCommands : Except String (List String)
  createDns : Except String String
  deleteInstance : Except String Unit
  deleteDnsRecord : Except String Unit

/-- Observable outcome of a provisioning run: the final store, the emitted
events in order, and whether compensation attempted the instance / DNS
deletions. -/
structure DeployResult where
  store : Store
  events : List SSEEvent
  instanceDeleteAttempted : Bool
  dnsDeleteAttempted : Bool
  deriving Repr, DecidableEq

/-- The catch block of `deployVmAsync`: `emitError` with the thrown message,
then best-effort cleanup (delete the instance, then the DNS record) guarded by
the session's recorded `instanceName`; a cleanup failure is reported through
`emitError` again with a "Cleanup failed: " message. -/
def deployCleanup (env : DeployEnv) (sid : String) (st : Store) (evs : List SSEEvent)
    (errMsg : String) : DeployResult :=
  let st1 := emitErrorStore st sid errMsg
  let evs1 := evs ++ [errorEvent errMsg]
  match Store.get st1 sid with
  | none => ⟨st1, evs1, false, false⟩
  | some s =>
    if truthy s.instanceName then
      let evs2 := evs1 ++ [progressEvent "Cleaning up failed deployment..."]
      match env.deleteInstance with
      | .error ce =>
        ⟨emitErrorStore st1 sid ("Cleanup failed: " ++ ce),
         evs2 ++ [errorEvent ("Cleanup failed: " ++ ce)], true, false⟩
      | .ok _ =>
        if truthy s.dnsName then
          match env.deleteDnsRecord with
          | .error ce =>
            ⟨emitErrorStore st1 sid ("Cleanup failed: " ++ ce),
             evs2 ++ [errorEvent ("Cleanup failed: " ++ ce)], true, true⟩
          | .ok _ => ⟨st1, evs2, true, true⟩
        else ⟨st1, evs2, true, false⟩
    else ⟨st1, evs1, false, false⟩

/-- The session variant of `deployVmAsync` (create-vm.ts): the provisioning
workflow, with each external call drawn from the environment and every step
failure routed through the catch block `deployCleanup`. -/
def deployVmAsync (env : DeployEnv) (cfg : DeploymentConfig) (sid : String)
    (st0 : Store) : DeployResult :=
  let iname := instanceNameSessionVariant cfg
  let evs0 := [progressEvent "Initializing deployment...",
               progressEvent ("Creating Lightsail instance: " ++ iname.getD "undefined")]
  match env.createInstance with
  | .error e => deployCleanup env sid st0 evs0 e
  | .ok _ =>
    let st1 := updateSession st0 sid { instanceName := iname }
    let evs1 := evs0 ++ [progressEvent "Waiting for instance to be ready..."]
    match waitForInstanceRunning env.waitPoll 24 with
    | .error e => deployCleanup env sid st1 evs1 e
    | .ok publicIp =>
      let st2 := updateSession st1 sid { publicIp := some publicIp }
      let evs2 := evs1 ++ [progressEvent ("Instance ready at IP: " ++ publicIp),
                           progressEvent "Opening firewall ports..."]
      match env.openPorts with
      | .error e => deployCleanup env sid st2 evs2 e
      | .ok _ =>
        let evs3 := evs2 ++ [progressEvent "Waiting for instance initialization...",
                             progressEvent "Connecting via SSH..."]
        match env.sshConnect with
        | .error e => deployCleanup env sid st2 evs3 e
        | .ok _ =>
          let evs4 := evs3 ++
            [progressEvent "Setting up environment and deploying application..."]
          match env.setupCommands with
          | .error e => deployCleanup env sid st2 evs4 e
          | .ok setupLogs =>
            let st3 := setupLogs.foldl (fun s m => emitLogStore s sid m) st2
            let evs5 := evs4 ++ setupLogs.map logEvent ++
              [progressEvent "Creating DNS record..."]
            match env.createDns with
            | .error e => deployCleanup env sid st3 evs5 e
            | .ok dnsName =>
              let st4 := updateSession st3 sid { dnsName := some dnsName }
              let st5 := emitCompleteStore st4 sid
              let evs6 := evs5 ++
                [completeEvent ("https://" ++ dnsName),
                 progressEvent ("Deployment complete! Your application is available at: https://" ++ dnsName)]
              ⟨st5, evs6, false, false⟩

/-- `createVm`: create the session, then run the detached provisioning
workflow (modelled as running to completion). -/
def createVm (env : DeployEnv) (cfg : DeploymentConfig) (sid : String)
    (st0 : Store) : DeployResult :=
  deployVmAsync env cfg sid (createSession st0 cfg sid)

/-- Results of the external calls a redeploy run makes. -/
structure RedeployEnv where
  sshConnect : Except String Unit
  redeployCommands : Except String (List String)

/-- The session variant of `redeployAsync` (redeploy.ts): connect, run the
redeploy commands, log each, then set `success` and `emitComplete`; any thrown
error is routed to `emitError`. The `session` argument is the object captured
by `redeployProject` before launching (its fields read here are not mutated in
between). -/
def redeployAsync (env : RedeployEnv) (sid : String) (session : DeploymentState)
    (st0 : Store) (now : Nat) : Store × List SSEEvent :=
  let evs0 := [progressEvent "Starting redeployment...",
               progressEvent "Connecting to server..."]
  match env.sshConnect with
  | .error e => (emitErrorStore st0 sid e, evs0 ++ [errorEvent e])
  | .ok _ =>
    let evs1 := evs0 ++ [progressEvent "Pulling latest code and restarting services..."]
    match env.redeployCommands with
    | .error e => (emitErrorStore st0 sid e, evs1 ++ [errorEvent e])
    | .ok redeployLogs =>
      let st1 := redeployLogs.foldl (fun s m => emitLogStore s sid m) st0
      let st2 := updateSession st1 sid { status := some .success, lastDeployedAt := some now }
      let st3 := emitCompleteStore st2 sid
      (st3,
       evs1 ++ redeployLogs.map logEvent ++
         [completeEvent ("https://" ++ (session.dnsName.getD "undefined")),
          progressEvent ("Redeployment complete! Your application is available at: https://" ++
            (session.dnsName.getD "undefined"))])

/-- The synchronous part of `redeployProject(sessionId)` (redeploy.ts): reject
an unknown session, reject a session missing `instanceName` or `publicIp`,
otherwise set status `redeploying`, refresh `lastDeployedAt`, and hand back
the captured session for the background task. -/
def redeployProjectSync (sid : String) (st0 : Store) (now : Nat) :
    Except String (Store × DeploymentState) :=
  match Store.get st0 sid with
  | none => .error "Session not found"
  | some session =>
    if truthy session.instanceName && truthy session.publicIp then
      .ok (updateSession st0 sid { status := some .redeploying, lastDeployedAt := some now },
           session)
    else .error "Deployment information not found in session"

/-- `redeployProject` followed by its detached `redeployAsync` run. -/
def redeployProject (env : RedeployEnv) (sid : String) (st0 : Store) (now : Nat) :
    Except String (Store × List SSEEvent) :=
  match redeployProjectSync sid st0 now with
  | .error e => .error e
  | .ok (st1, session) => .ok (redeployAsync env sid session st1 now)

/-- Results of the external calls a deletion run makes. -/
structure DeleteEnv where
  deleteDnsRecord : Except String Unit
  deleteInstance : Except String Unit

/-- Observable outcome of a deletion run: final store, events, and whether the
delayed `deleteSession` call was scheduled (the `setTimeout` on the success
path). -/
structure DeleteResult where
  store : Store
  events : List SSEEvent
  removalScheduled : Bool
  deriving Repr, DecidableEq

/-- `deleteVmAsync` (delete-vm.ts): best-effort DNS record deletion (failure
is reported as a warning progress event and the workflow continues), then the
instance deletion (failure goes to the catch block's `emitError`); only the
success path schedules the delayed session removal. -/
def deleteVmAsync (env : DeleteEnv) (sid : String) (session : DeploymentState)
    (st0 : Store) : DeleteResult :=
  let evs0 := [progressEvent "Starting VM deletion..."]
  let evs1 :=
    if truthy session.dnsName then
      match env.deleteDnsRecord with
      | .ok _ => evs0 ++ [progressEvent "Deleting DNS record...",
                          progressEvent "DNS record deleted successfully"]
      | .error e => evs0 ++ [progressEvent "Deleting DNS record...",
                             progressEvent ("Warning: Failed to delete DNS record: " ++ e)]
    else evs0
  let evs2 := evs1 ++ [progressEvent "Deleting Lightsail instance..."]
  match env.deleteInstance with
  | .error e => ⟨emitErrorStore st0 sid e, evs2 ++ [errorEvent e], false⟩
  | .ok _ =>
    ⟨emitCompleteStore st0 sid,
     evs2 ++ [progressEvent "Lightsail instance deleted successfully",
              completeEvent (session.instanceName.getD "undefined"),
              progressEvent ("VM deletion complete! Instance " ++
                session.instanceName.getD "undefined" ++ " has been removed.")],
     true⟩

/-- The synchronous part of `deleteVm` plus its detached workflow run. -/
def deleteVm (env : DeleteEnv) (sid : String) (st0 : Store) : Except String DeleteResult :=
  match Store.get st0 sid with
  | none => .error "Session not found"
  | some session =>
    if truthy session.instanceName then .ok (deleteVmAsync env sid session st0)
    else .error "No instance found to delete"

/-- Results of the external calls `forceDeleteVm` makes. -/
structure ForceDeleteEnv where
  deleteInstance : Except String Unit
  deleteDnsRecord : Except String Unit

/-- `forceDeleteVm` (delete-vm.ts): unknown session is the only synchronous
failure; each external deletion is individually caught and reported as a
console warning; the session is always removed from the store afterward.
(The `session.config` truthiness guard of the source is always satisfied,
since every stored session carries its config object.) -/
def forceDeleteVm (fenv : ForceDeleteEnv) (sid : String) (st0 : Store) :
    Except String (Store × List String) :=
  match Store.get st0 sid with
  | none => .error "Session not found"
  | some s =>
    let warns :=
      if truthy s.instanceName then
        (match fenv.deleteInstance with
         | .ok _ => []
         | .error e => ["Failed to delete AWS instance: " ++ e]) ++
        (match fenv.deleteDnsRecord with
         | .ok _ => []
         | .error e => ["Failed to delete DNS record: " ++ e])
      else []
    .ok (Store.del st0 sid, warns)

/-! Concrete fixtures used by counterexamples and witnesses. -/

/-- Scenario A configuration: the repository reference of the spec with no
explicit project name. -/
def cfgScenario : DeploymentConfig :=
  { githubRepoUrl := "https://example.com/org/my-app.git", projectName := none }

/-- Environment of a provisioning run that fails at the DNS-record step and
whose compensation succeeds. -/
def envDnsFail : DeployEnv :=
  { createInstance := .ok (), waitPoll := fun _ => .info "running" (some "1.2.3.4"),
    openPorts := .ok (), sshConnect := .ok (), setupCommands := .ok ["cmd1"],
    createDns := .error "dns exploded", deleteInstance := .ok (), deleteDnsRecord := .ok () }

/-- Environment of a provisioning run whose readiness check throws and whose
compensation (instance deletion) also fails. -/
def envCleanupFail : DeployEnv :=
  { createInstance := .ok (), waitPoll := fun _ => .fail "wait exploded",
    openPorts := .ok (), sshConnect := .ok (), setupCommands := .ok [],
    createDns := .ok "d", deleteInstance := .error "delete exploded",
    deleteDnsRecord := .ok () }

/-- Environment of a redeploy run whose external calls all succeed. -/
def envRedeployOk : RedeployEnv :=
  { sshConnect := .ok (), redeployCommands := .ok [] }

/-- Environment of a provisioning run whose external calls all succeed. -/
def envAllOk : DeployEnv :=
  { createInstance := .ok (), waitPoll := fun _ => .info "running" (some "1.2.3.4"),
    openPorts := .ok (), sshConnect := .ok (), setupCommands := .ok [],
    createDns := .ok "my-app.example.com", deleteInstance := .ok (), deleteDnsRecord := .ok () }

/-- Store after a provisioning run that failed after the instance and address
were recorded but before the DNS record was created. -/
def storeAfterDnsFail : Store :=
  (createVm envDnsFail cfgScenario "s1" []).store

/-- The session after redeploying the partially-failed deployment above. -/
def sessAfterRedeploy : Option DeploymentState :=
  ((redeployProject envRedeployOk "s1" storeAfterDnsFail 5).toOption.map
    (fun r => Store.get r.1 "s1")).join

/-- A session still `deploying` whose instance name and public IP are already
recorded (the state reached mid-provisioning, after the readiness wait). -/
def sDeployingWithInfo : DeploymentState :=
  { deploymentId := "s1", status := .deploying, config := cfgScenario,
    instanceName := some "my-app", publicIp := some "1.2.3.4" }

/-- A fully provisioned session (the state after a successful deployment). -/
def sProvisioned : DeploymentState :=
  { deploymentId := "s1", status := .success, config := cfgScenario,
    instanceName := some "my-app", publicIp := some "1.2.3.4",
    dnsName := some "my-app.example.com" }

/-- Deletion environment whose instance deletion fails. -/
def envDeleteInstanceFail : DeleteEnv :=
  { deleteDnsRecord := .ok (), deleteInstance := .error "instance delete exploded" }

/-- Deletion environment whose DNS deletion fails but instance deletion
succeeds. -/
def envDeleteDnsFail : DeleteEnv :=
  { deleteDnsRecord := .error "dns delete exploded", deleteInstance := .ok () }

/-- Force-deletion environment where both external calls fail. -/
def fenvAllFail : ForceDeleteEnv :=
  { deleteInstance := .error "instance delete exploded",
    deleteDnsRecord := .error "dns delete exploded" }

/-- Poll function of Scenario B: "running" but never an address. -/
def pollNeverReady : Nat → PollOutcome := fun _ => .info "running" none

/-- Environment of a provisioning run that times out waiting for readiness and
whose compensation succeeds. -/
def envTimeout : DeployEnv :=
  { createInstance := .ok (), waitPoll := pollNeverReady,
    openPorts := .ok (), sshConnect := .ok (), setupCommands := .ok [],
    createDns := .ok "d", deleteInstance := .ok (), deleteDnsRecord := .ok () }

/-! Store lemmas. -/

theorem Store.get_set_self (st : Store) (id : String) (v : DeploymentState) :
    Store.get (Store.set st id v) id = some v := by
  induction st with
  | nil => simp [Store.set, Store.get]
  | cons p rest ih =>
    by_cases h : p.1 = id
    · simp [Store.set, Store.get, h]
    · simp [Store.set, Store.get, h, ih]

theorem Store.get_updateSession_self (st : Store) (id : String) (u : SessionUpdate) :
    Store.get (updateSession st id u) id = (Store.get st id).map (fun s => applyUpdate s u) := by
  unfold updateSession
  cases h : Store.get st id with
  | none => simp [h]
  | some s => simp [Store.get_set_self]

theorem Store.get_del_self (st : Store) (id : String) :
    Store.get (Store.del st id) id = none := by
  induction st with
  | nil => rfl
  | cons p rest ih =>
    by_cases h : p.1 = id
    · simpa [Store.del, List.filter_cons, h] using ih
    · simpa [Store.del, List.filter_cons, h, Store.get] using ih

theorem Store.not_mem_map_fst_del (st : Store) (id : String) :
    id ∉ (Store.del st id).map Prod.fst := by
  intro hmem
  rcases List.mem_map.mp hmem with ⟨p, hp, hfst⟩
  rcases List.mem_filter.mp hp with ⟨_, hkeep⟩
  exact (of_decide_eq_true hkeep) hfst

theorem get_foldl_emitLog (sid : String) (l : List String) (st : Store) :
    Store.get (l.foldl (fun s m => emitLogStore s sid m) st) sid =
      (Store.get st sid).map (fun s => { s with logs := s.logs ++ l }) := by
  induction l generalizing st with
  | nil => cases h : Store.get st sid <;> simp [h]
  | cons m ms ih =>
    rw [List.foldl_cons, ih]
    cases h : Store.get st sid with
    | none => simp [emitLogStore, h]
    | some s =>
      have h2 : Store.get (emitLogStore st sid m) sid
          = some { s with logs := s.logs ++ [m] } := by
        simp [emitLogStore, h, Store.get_updateSession_self, applyUpdate, updField]
      simp [h2, h]

/-- C1: the claim requires the channel key `emitEvent` publishes on and the
channel key the SSE route subscribes on to agree for the same deployment id.
They never agree ("deployment:" vs "session:" prefixes), so a handler
registered through the SSE endpoint before a publish for id "d1" is invoked
zero times, not exactly once: the publish delivers to no SSE subscriber. -/
theorem C1_sse_channel_key_mismatch :
    sseChannelKey "d1" ≠ emitChannelKey "d1" ∧
    emitEventDeliveries (subscribeSse [] "d1" 0) "d1" = [] ∧
    ∀ id : String, sseChannelKey id ≠ emitChannelKey id := by
  refine ⟨by decide, rfl, ?_⟩
  intro id h
  have hlen := congrArg String.length h
  rw [sseChannelKey, emitChannelKey, String.length_append, String.length_append] at hlen
  have h1 : ("session:").length = 8 := rfl
  have h2 : ("deployment:").length = 11 := rfl
  omega

/-- C9 counterexample: in the session variant of the name extraction
(create-vm.ts), an empty repository reference does not fall back to a
constant default name — the fallback is the configured project name, and two
empty-reference configurations yield two different names (and no name at all
when the project name is absent). -/
theorem C9_counterexample :
    instanceNameSessionVariant { githubRepoUrl := "", projectName := some "alpha" } = some "alpha" ∧
    instanceNameSessionVariant { githubRepoUrl := "", projectName := some "beta" } = some "beta" ∧
    instanceNameSessionVariant { githubRepoUrl := "", projectName := none } = none :=
  ⟨rfl, rfl, rfl⟩

/-- C9 (amended): both variants extract the last '/'-separated segment of the
repository reference and strip a trailing ".git", yielding "my-app" for the
Scenario A reference with no explicit name; for an empty reference the
deployment-id variant falls back to the constant "project", while the session
variant falls back to the configured project name (none when absent). -/
theorem C9_name_extraction :
    lastSegment "https://example.com/org/my-app.git" = "my-app.git" ∧
    stripGitSuffix "my-app.git" = "my-app" ∧
    instanceNameSessionVariant cfgScenario = some "my-app" ∧
    instanceNameDeployIdVariant cfgScenario = "my-app" ∧
    instanceNameDeployIdVariant { githubRepoUrl := "", projectName := none } = "project" ∧
    (∀ q, instanceNameSessionVariant { githubRepoUrl := "", projectName := some q } = some q) ∧
    instanceNameSessionVariant { githubRepoUrl := "", projectName := none } = none := by
  refine ⟨rfl, rfl, rfl, rfl, rfl, ?_, rfl⟩
  intro q
  rfl

/-- C10: updating an id that is not present in the session store is a silent
no-op — no error, no session created, the store unchanged. -/
theorem C10_updateSession_unknown_id_noop (st : Store) (id : String) (u : SessionUpdate)
    (h : Store.get st id = none) : updateSession st id u = st := by
  unfold updateSession
  rw [h]

/-- Witness for C10 at the empty store. -/
theorem C10_witness :
    Store.get [] "missing" = none ∧ updateSession [] "missing" {} = [] :=
  ⟨rfl, C10_updateSession_unknown_id_noop [] "missing" {} rfl⟩

/-- C4 counterexample: redeploy on a session that is still `deploying` but
already has its instance name and public IP recorded does not fail with any
InvalidState error — it succeeds, sets the status to `redeploying`, and hands
the session to the background redeploy task. -/
theorem C4_counterexample :
    redeployProjectSync "s1" [("s1", sDeployingWithInfo)] 7 =
      .ok ([("s1", { sDeployingWithInfo with status := .redeploying, lastDeployedAt := some 7 })],
           sDeployingWithInfo) := rfl

/-- C4 (amended): `redeployProject` never checks the session status. It fails
synchronously only when the session is unknown ("Session not found") or when
`instanceName` or `publicIp` is falsy ("Deployment information not found in
session"); otherwise — including on a session still `deploying` — it sets
status `redeploying` and launches the redeploy workflow. -/
theorem C4_redeploy_guards (sid : String) (st : Store) (now : Nat) :
    (Store.get st sid = none → redeployProjectSync sid st now = .error "Session not found") ∧
    (∀ s, Store.get st sid = some s →
      (truthy s.instanceName = false ∨ truthy s.publicIp = false) →
      redeployProjectSync sid st now = .error "Deployment information not found in session") ∧
    (∀ s, Store.get st sid = some s → truthy s.instanceName = true → truthy s.publicIp = true →
      redeployProjectSync sid st now =
        .ok (updateSession st sid { status := some .redeploying, lastDeployedAt := some now }, s)) := by
  refine ⟨?_, ?_, ?_⟩
  · intro h
    simp [redeployProjectSync, h]
  · intro s hs hor
    rcases hor with h | h <;> simp [redeployProjectSync, hs, h]
  · intro s hs h1 h2
    simp [redeployProjectSync, hs, h1, h2]

/-- Witness for C4 at the empty store. -/
theorem C4_witness :
    redeployProjectSync "s1" [] 0 = .error "Session not found" :=
  (C4_redeploy_guards "s1" [] 0).1 rfl

theorem get_emitErrorStore (st : Store) (sid e : String) (s : DeploymentState)
    (hs : Store.get st sid = some s) :
    Store.get (emitErrorStore st sid e) sid
      = some (applyUpdate s { status := some .failed, error := some e }) := by
  simp [emitErrorStore, Store.get_updateSession_self, hs]

theorem deployCleanup_store_shape (env : DeployEnv) (sid : String) (st : Store)
    (evs : List SSEEvent) (msg : String) :
    (deployCleanup env sid st evs msg).store = emitErrorStore st sid msg ∨
    ∃ x, (deployCleanup env sid st evs msg).store
        = emitErrorStore (emitErrorStore st sid msg) sid ("Cleanup failed: " ++ x) := by
  simp only [deployCleanup]
  repeat' split
  all_goals first
    | exact Or.inl rfl
    | exact Or.inr ⟨_, rfl⟩

theorem deployCleanup_get_failed (env : DeployEnv) (sid : String) (st : Store)
    (evs : List SSEEvent) (msg : String) (s t : DeploymentState)
    (hs : Store.get st sid = some s)
    (ht : Store.get (deployCleanup env sid st evs msg).store sid = some t) :
    t.status = .failed := by
  rcases deployCleanup_store_shape env sid st evs msg with h | ⟨x, h⟩
  · rw [h, get_emitErrorStore st sid msg s hs] at ht
    injection ht with ht
    rw [← ht]
    simp [applyUpdate]
  · rw [h, get_emitErrorStore _ sid _ _ (get_emitErrorStore st sid msg s hs)] at ht
    injection ht with ht
    rw [← ht]
    simp [applyUpdate]

/-- C6 counterexample: run a provisioning that fails at the DNS step (leaving
status `failed`, error "dns exploded"), then a successful redeploy. The final
session has status `success` while the stale error field is still present, so
the error field is not "present only when status = failed". -/
theorem C6_counterexample :
    sessAfterRedeploy.map DeploymentState.status = some DeployStatus.success ∧
    sessAfterRedeploy.map DeploymentState.error = some (some "dns exploded") :=
  ⟨rfl, rfl⟩

/-- C6 (amended): `emitError` is the only writer of the error field and sets
status `failed` together with it; but `emitComplete` sets status `success`
without clearing the error field, so after a successful operation that follows
an earlier failure the stale error persists alongside status `success`. -/
theorem C6_error_field_discipline (st : Store) (id : String) (e : String)
    (s : DeploymentState) (hs : Store.get st id = some s) :
    (Store.get (emitErrorStore st id e) id).map (fun t => (t.status, t.error))
      = some (DeployStatus.failed, some e) ∧
    (Store.get (emitCompleteStore st id) id).map (fun t => (t.status, t.error))
      = some (DeployStatus.success, s.error) := by
  constructor
  · simp [emitErrorStore, Store.get_updateSession_self, hs, applyUpdate, updField]
  · simp [emitCompleteStore, Store.get_updateSession_self, hs, applyUpdate, updField]

/-- Witness for C6 on a concrete one-session store. -/
theorem C6_witness :
    Store.get [("s1", sProvisioned)] "s1" = some sProvisioned ∧
    (Store.get (emitErrorStore [("s1", sProvisioned)] "s1" "boom") "s1").map
      (fun t => (t.status, t.error)) = some (DeployStatus.failed, some "boom") ∧
    (Store.get (emitCompleteStore [("s1", sProvisioned)] "s1") "s1").map
      (fun t => (t.status, t.error)) = some (DeployStatus.success, sProvisioned.error) :=
  ⟨rfl, (C6_error_field_discipline [("s1", sProvisioned)] "s1" "boom" sProvisioned rfl).1,
        (C6_error_field_discipline [("s1", sProvisioned)] "s1" "boom" sProvisioned rfl).2⟩

/-- C7: for every existing session id, `forceDeleteVm` succeeds and leaves the
session absent from the store, whatever the outcomes of the external
instance-deletion and DNS-deletion calls; external failures are only collected
as warnings. -/
theorem C7_forceDelete_always_removes (fenv : ForceDeleteEnv) (sid : String)
    (st : Store) (s : DeploymentState) (hs : Store.get st sid = some s) :
    ∃ warns, forceDeleteVm fenv sid st = .ok (Store.del st sid, warns) ∧
      Store.get (Store.del st sid) sid = none ∧
      sid ∉ (Store.del st sid).map Prod.fst := by
  have h : forceDeleteVm fenv sid st = .ok (Store.del st sid,
      if truthy s.instanceName then
        (match fenv.deleteInstance with
         | .ok _ => []
         | .error e => ["Failed to delete AWS instance: " ++ e]) ++
        (match fenv.deleteDnsRecord with
         | .ok _ => []
         | .error e => ["Failed to delete DNS record: " ++ e])
      else []) := by
    simp only [forceDeleteVm, hs]
  exact ⟨_, h, Store.get_del_self st sid, Store.not_mem_map_fst_del st sid⟩

/-- Witness for C7 on a one-session store with both external calls failing. -/
theorem C7_witness :
    Store.get [("s1", sProvisioned)] "s1" = some sProvisioned ∧
    ∃ warns, forceDeleteVm fenvAllFail "s1" [("s1", sProvisioned)]
        = .ok (Store.del [("s1", sProvisioned)] "s1", warns) ∧
      Store.get (Store.del [("s1", sProvisioned)] "s1") "s1" = none ∧
      "s1" ∉ (Store.del [("s1", sProvisioned)] "s1").map Prod.fst :=
  ⟨rfl, C7_forceDelete_always_removes fenvAllFail "s1" [("s1", sProvisioned)] sProvisioned rfl⟩

/-- C5 counterexample: when the instance deletion fails, the deletion workflow
does not schedule the session's removal — the session stays in the store with
status `failed` — contradicting "the session is nonetheless still scheduled
for removal from the store after the short grace delay". -/
theorem C5_counterexample :
    (deleteVmAsync envDeleteInstanceFail "s1" sProvisioned [("s1", sProvisioned)]).removalScheduled
      = false ∧
    Store.get (deleteVmAsync envDeleteInstanceFail "s1" sProvisioned [("s1", sProvisioned)]).store "s1"
      = some { sProvisioned with status := .failed, error := some "instance delete exploded" } :=
  ⟨rfl, rfl⟩

/-- C5 (amended): in the deletion workflow a DNS-deletion failure is warn-only
(a warning progress event, and the workflow continues to the instance
deletion); on instance-deletion success the session is marked `success` and
its removal is scheduled after the grace delay; on instance-deletion failure
an error event is emitted, the session is marked `failed` and stays in the
store — no removal is scheduled. -/
theorem C5_deletion_policy (env : DeleteEnv) (sid : String) (s : DeploymentState)
    (st : Store) (hs : Store.get st sid = some s) :
    (∀ e, env.deleteDnsRecord = .error e → truthy s.dnsName = true →
      progressEvent ("Warning: Failed to delete DNS record: " ++ e)
        ∈ (deleteVmAsync env sid s st).events) ∧
    (env.deleteInstance = .ok () → (deleteVmAsync env sid s st).removalScheduled = true ∧
      Store.get (deleteVmAsync env sid s st).store sid
        = some (applyUpdate s { status := some .success })) ∧
    (∀ e, env.deleteInstance = .error e → (deleteVmAsync env sid s st).removalScheduled = false ∧
      errorEvent e ∈ (deleteVmAsync env sid s st).events ∧
      Store.get (deleteVmAsync env sid s st).store sid
        = some (applyUpdate s { status := some .failed, error := some e })) := by
  refine ⟨?_, ?_, ?_⟩
  · intro e he hd
    cases hdel : env.deleteInstance <;>
      simp [deleteVmAsync, he, hd, hdel, List.mem_append]
  · intro hdel
    exact ⟨by simp [deleteVmAsync, hdel],
           by simp [deleteVmAsync, hdel, emitCompleteStore, Store.get_updateSession_self, hs]⟩
  · intro e hdel
    refine ⟨by simp [deleteVmAsync, hdel], ?_,
            by simp [deleteVmAsync, hdel, emitErrorStore, Store.get_updateSession_self, hs]⟩
    simp [deleteVmAsync, hdel, List.mem_append]

/-- Witness for C5: DNS deletion fails (warning emitted), instance deletion
succeeds (removal scheduled). -/
theorem C5_witness :
    Store.get [("s1", sProvisioned)] "s1" = some sProvisioned ∧
    ((deleteVmAsync envDeleteDnsFail "s1" sProvisioned [("s1", sProvisioned)]).removalScheduled = true ∧
      Store.get (deleteVmAsync envDeleteDnsFail "s1" sProvisioned [("s1", sProvisioned)]).store "s1"
        = some (applyUpdate sProvisioned { status := some .success })) ∧
    progressEvent ("Warning: Failed to delete DNS record: " ++ "dns delete exploded")
      ∈ (deleteVmAsync envDeleteDnsFail "s1" sProvisioned [("s1", sProvisioned)]).events :=
  ⟨rfl, (C5_deletion_policy envDeleteDnsFail "s1" sProvisioned [("s1", sProvisioned)] rfl).2.1 rfl,
   (C5_deletion_policy envDeleteDnsFail "s1" sProvisioned [("s1", sProvisioned)] rfl).1
     "dns delete exploded" rfl rfl⟩

/-- C3 counterexample: a provisioning run that fails after recording the
instance name and public IP but before the DNS record, followed by a
successful redeploy, leaves the session with status `success` while its
hostname (dnsName) is still unset — so `success` does not imply a non-empty
hostname. -/
theorem C3_counterexample :
    sessAfterRedeploy.map DeploymentState.status = some DeployStatus.success ∧
    sessAfterRedeploy.map DeploymentState.dnsName = some none ∧
    sessAfterRedeploy.map DeploymentState.instanceName = some (some "my-app") ∧
    sessAfterRedeploy.map DeploymentState.publicIp = some (some "1.2.3.4") :=
  ⟨rfl, rfl, rfl, rfl⟩

theorem updField_none {α : Type} (o : Option α) : updField o none = o := by
  cases o <;> rfl

theorem updField_some {α : Type} (v : α) (old : Option α) :
    updField (some v) old = some v := rfl

theorem updField_none_left {α : Type} (old : Option α) : updField none old = old := rfl

theorem deployCleanup_comp_fail (env : DeployEnv) (sid : String) (st : Store)
    (evs : List SSEEvent) (msg ce : String) (s : DeploymentState)
    (hs : Store.get st sid = some s) (hn : truthy s.instanceName = true)
    (hdel : env.deleteInstance = .error ce) :
    deployCleanup env sid st evs msg =
      ⟨emitErrorStore (emitErrorStore st sid msg) sid ("Cleanup failed: " ++ ce),
       evs ++ [errorEvent msg] ++ [progressEvent "Cleaning up failed deployment..."] ++
         [errorEvent ("Cleanup failed: " ++ ce)], true, false⟩ := by
  have h1 := get_emitErrorStore st sid msg s hs
  have hn1 : truthy (applyUpdate s
      { status := some DeployStatus.failed, error := some msg }).instanceName = true := by
    simpa [applyUpdate, updField] using hn
  simp [deployCleanup, h1, hn1, hdel]

/-- C2 counterexample: a provisioning run whose readiness check throws
(original error "Failed to check instance status: wait exploded") and whose
compensation also fails ends with the session's error field holding the
compensation message, not the original error, and the compensation failure is
emitted as an error event rather than a warning. -/
theorem C2_counterexample :
    (Store.get (createVm envCleanupFail cfgScenario "s1" []).store "s1").map
      (fun t => (t.status, t.error))
      = some (DeployStatus.failed, some "Cleanup failed: delete exploded") ∧
    "Cleanup failed: delete exploded" ≠ "Failed to check instance status: wait exploded" ∧
    errorEvent "Cleanup failed: delete exploded" ∈ (createVm envCleanupFail cfgScenario "s1" []).events :=
  ⟨rfl, by decide, by decide⟩

/-- C2 (amended): when the provisioning workflow fails with error E and the
compensating instance deletion also fails, the session status remains `failed`
but the error field is overwritten with "Cleanup failed: " plus the
compensation message (via a second `emitError`), which is also emitted as an
error-level event — not a warning-level one. -/
theorem C2_compensation_overwrites_error (env : DeployEnv) (cfg : DeploymentConfig)
    (sid : String) (st0 : Store) (e ce : String)
    (hci : env.createInstance = .ok ())
    (hwait : waitForInstanceRunning env.waitPoll 24 = .error e)
    (hdel : env.deleteInstance = .error ce)
    (hname : truthy (instanceNameSessionVariant cfg) = true) :
    (createVm env cfg sid st0).instanceDeleteAttempted = true ∧
    errorEvent ("Cleanup failed: " ++ ce) ∈ (createVm env cfg sid st0).events ∧
    ∃ t, Store.get (createVm env cfg sid st0).store sid = some t ∧
      t.status = .failed ∧ t.error = some ("Cleanup failed: " ++ ce) := by
  have hfresh : Store.get (createSession st0 cfg sid) sid
      = some { deploymentId := sid, status := .deploying, config := cfg } :=
    Store.get_set_self _ _ _
  have h1 : Store.get (updateSession (createSession st0 cfg sid) sid
      { instanceName := instanceNameSessionVariant cfg }) sid
      = some (applyUpdate { deploymentId := sid, status := .deploying, config := cfg }
          { instanceName := instanceNameSessionVariant cfg }) := by
    simp [Store.get_updateSession_self, hfresh]
  have hn : truthy (applyUpdate
      { deploymentId := sid, status := DeployStatus.deploying, config := cfg }
      { instanceName := instanceNameSessionVariant cfg }).instanceName = true := by
    simpa [applyUpdate, updField_none] using hname
  simp only [createVm, deployVmAsync, hci, hwait]
  rw [deployCleanup_comp_fail env sid _ _ e ce _ h1 hn hdel]
  refine ⟨rfl, by simp, ?_⟩
  refine ⟨_, get_emitErrorStore _ sid _ _ (get_emitErrorStore _ sid _ _ h1), ?_, ?_⟩
  · simp [applyUpdate, updField]
  · simp [applyUpdate, updField]

/-- Witness for C2 at the concrete failing environment. -/
theorem C2_witness :
    envCleanupFail.createInstance = .ok () ∧
    waitForInstanceRunning envCleanupFail.waitPoll 24
      = .error "Failed to check instance status: wait exploded" ∧
    envCleanupFail.deleteInstance = .error "delete exploded" ∧
    truthy (instanceNameSessionVariant cfgScenario) = true ∧
    ((createVm envCleanupFail cfgScenario "s1" []).instanceDeleteAttempted = true ∧
     errorEvent ("Cleanup failed: " ++ "delete exploded")
       ∈ (createVm envCleanupFail cfgScenario "s1" []).events ∧
     ∃ t, Store.get (createVm envCleanupFail cfgScenario "s1" []).store "s1" = some t ∧
       t.status = .failed ∧ t.error = some ("Cleanup failed: " ++ "delete exploded")) :=
  ⟨rfl, rfl, rfl, rfl,
   C2_compensation_overwrites_error envCleanupFail cfgScenario "s1" []
     "Failed to check instance status: wait exploded" "delete exploded" rfl rfl rfl rfl⟩

/-- C3 (amended): after a provisioning run started by `createVm` (with a
truthy default instance name and a DNS provider that never returns an empty
hostname), any session found with status `success` has truthy `instanceName`
and `dnsName`; the redeploy entry point, however, only guarantees truthy
`instanceName` and `publicIp` for the session it accepts — it never checks the
hostname, which is why a redeploy can produce `success` with no hostname. -/
theorem C3_success_name_guarantees (env : DeployEnv) (cfg : DeploymentConfig)
    (sid : String) (st0 : Store)
    (hname : truthy (instanceNameSessionVariant cfg) = true)
    (hdns : ∀ d, env.createDns = .ok d → d ≠ "") :
    (∀ t, Store.get (createVm env cfg sid st0).store sid = some t → t.status = .success →
      truthy t.instanceName = true ∧ truthy t.dnsName = true) ∧
    (∀ now st1 s, redeployProjectSync sid st0 now = .ok (st1, s) →
      truthy s.instanceName = true ∧ truthy s.publicIp = true) := by
  constructor
  · intro t ht hsucc
    have hfresh : Store.get (createSession st0 cfg sid) sid
        = some { deploymentId := sid, status := DeployStatus.deploying, config := cfg } :=
      Store.get_set_self _ _ _
    have h1 : Store.get (updateSession (createSession st0 cfg sid) sid
        { instanceName := instanceNameSessionVariant cfg }) sid
        = some (applyUpdate { deploymentId := sid, status := .deploying, config := cfg }
            { instanceName := instanceNameSessionVariant cfg }) := by
      simp [Store.get_updateSession_self, hfresh]
    simp only [createVm, deployVmAsync] at ht
    cases hci : env.createInstance with
    | error e =>
      simp only [hci] at ht
      have hf := deployCleanup_get_failed env sid _ _ e _ t hfresh ht
      rw [hsucc] at hf
      simp at hf
    | ok u1 =>
      simp only [hci] at ht
      cases hw : waitForInstanceRunning env.waitPoll 24 with
      | error e =>
        simp only [hw] at ht
        have hf := deployCleanup_get_failed env sid _ _ e _ t h1 ht
        rw [hsucc] at hf
        simp at hf
      | ok ip =>
        simp only [hw] at ht
        have h2 : Store.get (updateSession (updateSession (createSession st0 cfg sid) sid
            { instanceName := instanceNameSessionVariant cfg }) sid
            { publicIp := some ip }) sid
            = some (applyUpdate (applyUpdate
                { deploymentId := sid, status := .deploying, config := cfg }
                { instanceName := instanceNameSessionVariant cfg })
                { publicIp := some ip }) := by
          simp [Store.get_updateSession_self, h1]
        cases hop : env.openPorts with
        | error e =>
          simp only [hop] at ht
          have hf := deployCleanup_get_failed env sid _ _ e _ t h2 ht
          rw [hsucc] at hf
          simp at hf
        | ok u2 =>
          simp only [hop] at ht
          cases hssh : env.sshConnect with
          | error e =>
            simp only [hssh] at ht
            have hf := deployCleanup_get_failed env sid _ _ e _ t h2 ht
            rw [hsucc] at hf
            simp at hf
          | ok u3 =>
            simp only [hssh] at ht
            cases hsetup : env.setupCommands with
            | error e =>
              simp only [hsetup] at ht
              have hf := deployCleanup_get_failed env sid _ _ e _ t h2 ht
              rw [hsucc] at hf
              simp at hf
            | ok setupLogs =>
              simp only [hsetup] at ht
              cases hcd : env.createDns with
              | error e =>
                simp only [hcd] at ht
                have h3 : Store.get (setupLogs.foldl (fun s m => emitLogStore s sid m)
                    (updateSession (updateSession (createSession st0 cfg sid) sid
                      { instanceName := instanceNameSessionVariant cfg }) sid
                      { publicIp := some ip })) sid
                    = some { (applyUpdate (applyUpdate
                        { deploymentId := sid, status := .deploying, config := cfg }
                        { instanceName := instanceNameSessionVariant cfg })
                        { publicIp := some ip }) with
                        logs := (applyUpdate (applyUpdate
                          { deploymentId := sid, status := .deploying, config := cfg }
                          { instanceName := instanceNameSessionVariant cfg })
                          { publicIp := some ip }).logs ++ setupLogs } := by
                  rw [get_foldl_emitLog, h2]
                  rfl
                have hf := deployCleanup_get_failed env sid _ _ e _ t h3 ht
                rw [hsucc] at hf
                simp at hf
              | ok d =>
                simp only [hcd] at ht
                simp only [emitCompleteStore, Store.get_updateSession_self,
                  get_foldl_emitLog, hfresh, Option.map_some'] at ht
                rw [Option.some_inj] at ht
                subst ht
                constructor
                · simpa [applyUpdate, updField_some, updField_none_left, updField_none]
                    using hname
                · simp [applyUpdate, updField_some, updField_none_left, updField_none, truthy]
                  exact hdns d hcd
  · intro now st1 s hok
    simp only [redeployProjectSync] at hok
    cases hg : Store.get st0 sid with
    | none =>
      simp only [hg] at hok
      exact absurd hok (by simp)
    | some session =>
      simp only [hg] at hok
      by_cases hc : (truthy session.instanceName && truthy session.publicIp) = true
      · rw [if_pos hc] at hok
        injection hok with hok
        have hs2 : session = s := congrArg Prod.snd hok
        have hc2 : truthy session.instanceName = true ∧ truthy session.publicIp = true := by
          simpa using hc
        rw [← hs2]
        exact hc2
      · rw [if_neg hc] at hok
        exact absurd hok (by simp)

/-- Witness for C3 on the all-success environment from the empty store. -/
theorem C3_witness :
    truthy (instanceNameSessionVariant cfgScenario) = true ∧
    (Store.get (createVm envAllOk cfgScenario "s1" []).store "s1").map
      (fun t => (t.status, t.dnsName)) = some (DeployStatus.success, some "my-app.example.com") ∧
    (∀ t, Store.get (createVm envAllOk cfgScenario "s1" []).store "s1" = some t →
      t.status = .success → truthy t.instanceName = true ∧ truthy t.dnsName = true) :=
  ⟨rfl, rfl,
   (C3_success_name_guarantees envAllOk cfgScenario "s1" [] rfl
     (fun d h => by simp [envAllOk] at h; subst h; decide)).1⟩

theorem waitLoop_isOk_iff (poll : Nat → PollOutcome) (hok : ∀ i m, poll i ≠ .fail m) :
    ∀ fuel attempt, isOkE (waitLoop poll attempt fuel) = true ↔
      ∃ j, j < fuel ∧ isReady (poll (attempt + j)) = true := by
  intro fuel
  induction fuel with
  | zero =>
    intro a
    simp [waitLoop, isOkE]
  | succ f ih =>
    intro a
    cases hp : poll a with
    | fail m => exact absurd hp (hok a m)
    | info stateName addr =>
      by_cases hr : (decide (stateName = "running") && truthy addr) = true
      · constructor
        · intro _
          refine ⟨0, Nat.succ_pos f, ?_⟩
          rw [Nat.add_zero, hp]
          simp only [isReady]
          exact hr
        · intro _
          simp [waitLoop, hp, hr, isOkE]
      · have hstep : waitLoop poll a (f + 1) = waitLoop poll (a + 1) f := by
          simp [waitLoop, hp, hr]
        rw [hstep, ih (a + 1)]
        constructor
        · rintro ⟨j, hj, hready⟩
          refine ⟨j + 1, by omega, ?_⟩
          have hidx : a + (j + 1) = a + 1 + j := by omega
          rw [hidx]
          exact hready
        · rintro ⟨j, hj, hready⟩
          cases j with
          | zero =>
            rw [Nat.add_zero, hp] at hready
            simp only [isReady] at hready
            exact absurd hready hr
          | succ k =>
            refine ⟨k, by omega, ?_⟩
            have hidx : a + 1 + k = a + (k + 1) := by omega
            rw [hidx]
            exact hready

theorem waitLoop_ok_value (poll : Nat → PollOutcome) :
    ∀ fuel attempt a, waitLoop poll attempt fuel = .ok a →
      ∃ j, j < fuel ∧ isReady (poll (attempt + j)) = true ∧
        a = normalizeIp (readyAddr (poll (attempt + j))) := by
  intro fuel
  induction fuel with
  | zero =>
    intro att a h
    exact absurd h (by simp [waitLoop])
  | succ f ih =>
    intro att a h
    cases hp : poll att with
    | fail m =>
      simp only [waitLoop, hp] at h
      exact absurd h (by simp)
    | info stateName addr =>
      by_cases hr : (decide (stateName = "running") && truthy addr) = true
      · simp [waitLoop, hp, hr] at h
        refine ⟨0, Nat.succ_pos f, ?_, ?_⟩
        · rw [Nat.add_zero, hp]
          simp only [isReady]
          exact hr
        · rw [Nat.add_zero, hp]
          simp only [readyAddr]
          exact h.symm
      · have hstep : waitLoop poll att (f + 1) = waitLoop poll (att + 1) f := by
          simp [waitLoop, hp, hr]
        rw [hstep] at h
        rcases ih (att + 1) a h with ⟨j, hj, h1, h2⟩
        have hidx : att + (j + 1) = att + 1 + j := by omega
        refine ⟨j + 1, by omega, ?_, ?_⟩
        · rw [hidx]
          exact h1
        · rw [hidx]
          exact h2

theorem waitLoop_timeout (poll : Nat → PollOutcome) (hok : ∀ i m, poll i ≠ .fail m) :
    ∀ fuel attempt, (∀ j, j < fuel → isReady (poll (attempt + j)) = false) →
      waitLoop poll attempt fuel = .error "Timeout waiting for instance to be ready" := by
  intro fuel
  induction fuel with
  | zero =>
    intro a _
    rfl
  | succ f ih =>
    intro a hall
    cases hp : poll a with
    | fail m => exact absurd hp (hok a m)
    | info stateName addr =>
      have h0 := hall 0 (Nat.succ_pos f)
      rw [Nat.add_zero, hp] at h0
      simp only [isReady] at h0
      have hstep : waitLoop poll a (f + 1) = waitLoop poll (a + 1) f := by
        simp [waitLoop, hp, h0]
      rw [hstep]
      apply ih
      intro j hj
      have hj2 := hall (j + 1) (by omega)
      have hidx : a + (j + 1) = a + 1 + j := by omega
      rw [hidx] at hj2
      exact hj2

theorem deployCleanup_comp_ok (env : DeployEnv) (sid : String) (st : Store)
    (evs : List SSEEvent) (msg : String) (s : DeploymentState)
    (hs : Store.get st sid = some s) (hn : truthy s.instanceName = true)
    (hd : truthy s.dnsName = false) (hdel : env.deleteInstance = .ok ()) :
    deployCleanup env sid st evs msg =
      ⟨emitErrorStore st sid msg,
       evs ++ [errorEvent msg] ++ [progressEvent "Cleaning up failed deployment..."],
       true, false⟩ := by
  have h1 := get_emitErrorStore st sid msg s hs
  have hn1 : truthy (applyUpdate s
      { status := some DeployStatus.failed, error := some msg }).instanceName = true := by
    simpa [applyUpdate, updField_none_left] using hn
  have hd1 : truthy (applyUpdate s
      { status := some DeployStatus.failed, error := some msg }).dnsName = false := by
    simpa [applyUpdate, updField_none_left] using hd
  simp [deployCleanup, h1, hn1, hd1, hdel]

/-- C8: the readiness wait (bounded by the default cap of 24 attempts)
returns an address exactly when some poll reports lifecycle state "running"
together with a non-empty address — either alone is insufficient; the
returned address is the polled address with any ':port' suffix stripped; when
every poll up to the cap is unready the wait fails with the timeout error, and
the provisioning workflow then ends `failed` with that error recorded while
compensation attempts deletion of the created instance. -/
theorem C8_readiness_wait (poll : Nat → PollOutcome) (hok : ∀ i m, poll i ≠ .fail m) :
    (isOkE (waitForInstanceRunning poll 24) = true ↔
      ∃ j, j < 24 ∧ isReady (poll j) = true) ∧
    (∀ a, waitForInstanceRunning poll 24 = .ok a →
      ∃ j, j < 24 ∧ isReady (poll j) = true ∧ a = normalizeIp (readyAddr (poll j))) ∧
    ((∀ j, j < 24 → isReady (poll j) = false) →
      waitForInstanceRunning poll 24 = .error "Timeout waiting for instance to be ready") ∧
    isReady (.info "running" none) = false ∧
    isReady (.info "pending" (some "1.2.3.4")) = false ∧
    isReady (.info "running" (some "1.2.3.4")) = true ∧
    normalizeIp "1.2.3.4:8080" = "1.2.3.4" ∧
    (∀ env cfg sid st0, env.waitPoll = poll → env.createInstance = .ok () →
      env.deleteInstance = .ok () → truthy (instanceNameSessionVariant cfg) = true →
      (∀ j, j < 24 → isReady (poll j) = false) →
      (createVm env cfg sid st0).instanceDeleteAttempted = true ∧
      ∃ t, Store.get (createVm env cfg sid st0).store sid = some t ∧
        t.status = .failed ∧ t.error = some "Timeout waiting for instance to be ready") := by
  refine ⟨?_, ?_, ?_, rfl, rfl, rfl, rfl, ?_⟩
  · simpa [waitForInstanceRunning] using waitLoop_isOk_iff poll hok 24 0
  · intro a ha
    have h2 := waitLoop_ok_value poll 24 0 a (by simpa [waitForInstanceRunning] using ha)
    simpa using h2
  · intro hnone
    have h3 := waitLoop_timeout poll hok 24 0 (fun j hj => by simpa using hnone j hj)
    simpa [waitForInstanceRunning] using h3
  · intro env cfg sid st0 hpoll hci hdel hname hnone
    have hw : waitForInstanceRunning env.waitPoll 24
        = .error "Timeout waiting for instance to be ready" := by
      rw [hpoll, waitForInstanceRunning]
      exact waitLoop_timeout poll hok 24 0 (fun j hj => by simpa using hnone j hj)
    have hfresh : Store.get (createSession st0 cfg sid) sid
        = some { deploymentId := sid, status := .deploying, config := cfg } :=
      Store.get_set_self _ _ _
    have h1 : Store.get (updateSession (createSession st0 cfg sid) sid
        { instanceName := instanceNameSessionVariant cfg }) sid
        = some (applyUpdate { deploymentId := sid, status := .deploying, config := cfg }
            { instanceName := instanceNameSessionVariant cfg }) := by
      simp [Store.get_updateSession_self, hfresh]
    have hn : truthy (applyUpdate
        { deploymentId := sid, status := DeployStatus.deploying, config := cfg }
        { instanceName := instanceNameSessionVariant cfg }).instanceName = true := by
      simpa [applyUpdate, updField_none] using hname
    have hd : truthy (applyUpdate
        { deploymentId := sid, status := DeployStatus.deploying, config := cfg }
        { instanceName := instanceNameSessionVariant cfg }).dnsName = false := by
      simp [applyUpdate, updField_none_left, truthy]
    simp only [createVm, deployVmAsync, hci, hw]
    rw [deployCleanup_comp_ok env sid _ _ "Timeout waiting for instance to be ready" _ h1 hn hd hdel]
    refine ⟨rfl, ?_⟩
    refine ⟨_, get_emitErrorStore _ sid _ _ h1, ?_, ?_⟩
    · simp [applyUpdate, updField]
    · simp [applyUpdate, updField]

/-- Witness for C8: the Scenario B poll ("running" but never an address) makes
the wait time out, and the full workflow then fails with compensation
attempting the instance deletion. -/
theorem C8_witness :
    (∀ i m, pollNeverReady i ≠ .fail m) ∧
    waitForInstanceRunning pollNeverReady 24
      = .error "Timeout waiting for instance to be ready" ∧
    ((createVm envTimeout cfgScenario "s1" []).instanceDeleteAttempted = true ∧
     ∃ t, Store.get (createVm envTimeout cfgScenario "s1" []).store "s1" = some t ∧
       t.status = .failed ∧ t.error = some "Timeout waiting for instance to be ready") := by
  have hok : ∀ i m, pollNeverReady i ≠ PollOutcome.fail m := by
    intro i m h
    simp [pollNeverReady] at h
  refine ⟨hok, ?_, ?_⟩
  · exact (C8_readiness_wait pollNeverReady hok).2.2.1 (fun j hj => rfl)
  · exact (C8_readiness_wait pollNeverReady hok).2.2.2.2.2.2.2 envTimeout cfgScenario "s1" []
      rfl rfl rfl rfl (fun j hj => rfl)

end McpDeploy
